import Mathlib

/-!
Verification development for two dRonin PiOS drivers:
the MS5611 barometer driver (`flight/PiOS/Common/pios_ms5611_spi.c`) and the
WS2811 LED strip driver (`flight/PiOS/STM32F4xx/pios_ws2811.c`).

The C code is shallowly embedded: machine integers become `Int`/`Nat` with
explicit wrapping where the C computation is performed in a fixed-width
signed type, stateful code becomes explicit state passing, and fallible
calls become `Option` results or explicit outcome oracles.
-/

set_option maxHeartbeats 1000000

/-! ### Fixed-width integer helpers

C signed arithmetic on `int64_t` / `int` (32-bit) is modelled by performing
the ideal operation on `Int` and reducing into the representable range
(twos-complement wrap).  C right shifts on negative signed values are
arithmetic (sign-preserving), i.e. floor division by a power of two; on
`Int`, `/` is euclidean division, which coincides with floor division for
positive divisors. -/

/-- Reduce an unbounded integer into the `int64_t` range, twos-complement style. -/
def wrap64 (x : Int) : Int :=
  (x + 9223372036854775808) % 18446744073709551616 - 9223372036854775808

/-- Reduce an unbounded integer into the 32-bit `int` range, twos-complement style. -/
def wrap32 (x : Int) : Int :=
  (x + 2147483648) % 4294967296 - 2147483648

/-- Arithmetic (sign-preserving) right shift: floor division by `2 ^ n`. -/
def asr (x : Int) (n : Nat) : Int := x / 2 ^ n

/-! ### MS5611 `PIOS_MS5611_ReadADC`, temperature branch (code embedding)

From `pios_ms5611_spi.c` lines 293-307.  `raw` is the assembled 24-bit ADC
code (`(data[0] << 16) | (data[1] << 8) | data[2]`), `cal4`/`cal5` are
`dev->calibration[4]`/`[5]` (`uint16_t`).  `delta_temp` is computed in
32-bit `int` arithmetic (`(int32_t)raw_temperature - (dev->calibration[4]
<< 8)`) before widening to `int64_t`; everything else is `int64_t`. -/

/-- Code: `delta_temp = (int32_t)raw_temperature - (dev->calibration[4] << 8)`. -/
def ms5611_delta_temp (cal4 raw : Nat) : Int :=
  wrap32 ((raw : Int) - wrap32 ((cal4 : Int) * 256))

/-- Code: `temperature = 2000 + ((delta_temp * dev->calibration[5]) >> 23)`
(the uncorrected value kept in the `static int64_t temperature` local). -/
def ms5611_temperature (cal4 cal5 raw : Nat) : Int :=
  wrap64 (2000 + asr (wrap64 (ms5611_delta_temp cal4 raw * (cal5 : Int))) 23)

/-- Code: `dev->temperature_unscaled` after the second-order compensation
`if (temperature < 2000) dev->temperature_unscaled -= (delta_temp * delta_temp) >> 31`. -/
def ms5611_temperature_unscaled (cal4 cal5 raw : Nat) : Int :=
  if ms5611_temperature cal4 cal5 raw < 2000 then
    wrap64 (ms5611_temperature cal4 cal5 raw -
      asr (wrap64 (ms5611_delta_temp cal4 raw * ms5611_delta_temp cal4 raw)) 31)
  else
    ms5611_temperature cal4 cal5 raw

/-! ### MS5611 `PIOS_MS5611_ReadADC`, pressure branch (code embedding)

From `pios_ms5611_spi.c` lines 309-336.  `dt`, `t` and `tu` are the values
carried over from the most recent temperature conversion: the
`static int64_t delta_temp`, the `static int64_t temperature` (uncorrected)
and `dev->temperature_unscaled` (corrected). -/

/-- Code: `offset = ((int64_t)dev->calibration[1] << 16) + (((int64_t)dev->calibration[3] * delta_temp) >> 7)`. -/
def ms5611_offset (cal1 cal3 : Nat) (dt : Int) : Int :=
  wrap64 (wrap64 ((cal1 : Int) * 65536) + asr (wrap64 ((cal3 : Int) * dt)) 7)

/-- Code: `sens = ((int64_t)dev->calibration[0] << 15) + (((int64_t)dev->calibration[2] * delta_temp) >> 8)`. -/
def ms5611_sens (cal0 cal2 : Nat) (dt : Int) : Int :=
  wrap64 (wrap64 ((cal0 : Int) * 32768) + asr (wrap64 ((cal2 : Int) * dt)) 8)

/-- Code: `offset` after the second-order compensation block guarded by
`if (temperature < 2000)` and, nested, `if (dev->temperature_unscaled < -1500)`. -/
def ms5611_offset_corr (cal1 cal3 : Nat) (dt t tu : Int) : Int :=
  if t < 2000 then
    if tu < -1500 then
      wrap64 (wrap64 (ms5611_offset cal1 cal3 dt -
        asr (wrap64 (wrap64 (5 * wrap64 (t - 2000)) * wrap64 (t - 2000))) 1) -
        wrap64 (wrap64 (7 * wrap64 (t + 1500)) * wrap64 (t + 1500)))
    else
      wrap64 (ms5611_offset cal1 cal3 dt -
        asr (wrap64 (wrap64 (5 * wrap64 (t - 2000)) * wrap64 (t - 2000))) 1)
  else ms5611_offset cal1 cal3 dt

/-- Code: `sens` after the second-order compensation block. -/
def ms5611_sens_corr (cal0 cal2 : Nat) (dt t tu : Int) : Int :=
  if t < 2000 then
    if tu < -1500 then
      wrap64 (wrap64 (ms5611_sens cal0 cal2 dt -
        asr (wrap64 (wrap64 (5 * wrap64 (t - 2000)) * wrap64 (t - 2000))) 2) -
        asr (wrap64 (wrap64 (11 * wrap64 (t + 1500)) * wrap64 (t + 1500))) 1)
    else
      wrap64 (ms5611_sens cal0 cal2 dt -
        asr (wrap64 (wrap64 (5 * wrap64 (t - 2000)) * wrap64 (t - 2000))) 2)
  else ms5611_sens cal0 cal2 dt

/-- Code: `dev->pressure_unscaled = ((((int64_t)raw_pressure * sens) >> 21) - offset) >> 15`. -/
def ms5611_pressure_unscaled (cal0 cal1 cal2 cal3 : Nat) (dt t tu : Int) (raw : Nat) : Int :=
  asr (wrap64 (asr (wrap64 ((raw : Int) * ms5611_sens_corr cal0 cal2 dt t tu)) 21 -
    ms5611_offset_corr cal1 cal3 dt t tu)) 15

/-! ### MS5611 spec-side reference model

These definitions follow the spec stated fixed-point formulas word for
word, in unbounded signed integer arithmetic with arithmetic right shifts;
they are compared against the code embedding above in the
refinement theorem for C1. -/

/-- Spec: `delta_temp = raw - calibration[4] * 2^8`. -/
def spec_delta_temp (cal4 raw : Nat) : Int := (raw : Int) - (cal4 : Int) * 256

/-- Spec: `temperature = 2000 + (delta_temp * calibration[5]) >> 23`. -/
def spec_temperature (cal4 cal5 raw : Nat) : Int :=
  2000 + asr (spec_delta_temp cal4 raw * (cal5 : Int)) 23

/-- Spec: if the uncorrected temperature is `< 2000`, subtract
`(delta_temp^2) >> 31` from it. -/
def spec_temperature_corrected (cal4 cal5 raw : Nat) : Int :=
  if spec_temperature cal4 cal5 raw < 2000 then
    spec_temperature cal4 cal5 raw -
      asr (spec_delta_temp cal4 raw * spec_delta_temp cal4 raw) 31
  else
    spec_temperature cal4 cal5 raw

/-- Spec: `offset = calibration[1] * 2^16 + (calibration[3] * delta_temp) >> 7`. -/
def spec_offset (cal1 cal3 : Nat) (dt : Int) : Int :=
  (cal1 : Int) * 65536 + asr ((cal3 : Int) * dt) 7

/-- Spec: `sens = calibration[0] * 2^15 + (calibration[2] * delta_temp) >> 8`. -/
def spec_sens (cal0 cal2 : Nat) (dt : Int) : Int :=
  (cal0 : Int) * 32768 + asr ((cal2 : Int) * dt) 8

/-- Spec: subtract `5 * (t - 2000)^2 >> 1` from offset iff the uncorrected
temperature of the last temperature pass was `< 2000`; additionally subtract
`7 * (t + 1500)^2` iff the corrected temperature was `< -1500`. -/
def spec_offset_corr (cal1 cal3 : Nat) (dt t tu : Int) : Int :=
  if t < 2000 then
    if tu < -1500 then
      spec_offset cal1 cal3 dt - asr (5 * (t - 2000) * (t - 2000)) 1 -
        7 * (t + 1500) * (t + 1500)
    else
      spec_offset cal1 cal3 dt - asr (5 * (t - 2000) * (t - 2000)) 1
  else spec_offset cal1 cal3 dt

/-- Spec: subtract `5 * (t - 2000)^2 >> 2` from sens iff the uncorrected
temperature was `< 2000`; additionally subtract `(11 * (t + 1500)^2) >> 1`
iff the corrected temperature was `< -1500`. -/
def spec_sens_corr (cal0 cal2 : Nat) (dt t tu : Int) : Int :=
  if t < 2000 then
    if tu < -1500 then
      spec_sens cal0 cal2 dt - asr (5 * (t - 2000) * (t - 2000)) 2 -
        asr (11 * (t + 1500) * (t + 1500)) 1
    else
      spec_sens cal0 cal2 dt - asr (5 * (t - 2000) * (t - 2000)) 2
  else spec_sens cal0 cal2 dt

/-- Spec: `pressure = (((raw * sens) >> 21) - offset) >> 15`. -/
def spec_pressure (cal0 cal1 cal2 cal3 : Nat) (dt t tu : Int) (raw : Nat) : Int :=
  asr (asr ((raw : Int) * spec_sens_corr cal0 cal2 dt t tu) 21 -
    spec_offset_corr cal1 cal3 dt t tu) 15

/-! ### MS5611 self-test, init, StartADC and sampling task -/

/-- Code: the range check ending `PIOS_MS5611_SPI_Test` (lines 422-429). -/
def ms5611_selftest_check (t p : Int) : Int :=
  if t < -4000 ∨ t > 8500 ∨ p < 1000 ∨ p > 120000 then -1 else 0

/-- Code: `PIOS_MS5611_SPI_Test` (lines 403-430) on a valid device: one full
temperature cycle, then one full pressure cycle (device claim/release and
delays are external primitives; `rawT`/`rawP` are the ADC codes the two reads
return), then the range check on the resulting unscaled values. -/
def ms5611_spi_test (cal0 cal1 cal2 cal3 cal4 cal5 : Nat) (rawT rawP : Nat) : Int :=
  ms5611_selftest_check (ms5611_temperature_unscaled cal4 cal5 rawT)
    (ms5611_pressure_unscaled cal0 cal1 cal2 cal3 (ms5611_delta_temp cal4 rawT)
      (ms5611_temperature cal4 cal5 rawT)
      (ms5611_temperature_unscaled cal4 cal5 rawT) rawP)

/-- Code: `PIOS_MS5611_SPI_Init` (lines 137-168).  `allocOk` is the outcome of
`PIOS_MS5611_alloc`, `resetOk` of `PIOS_MS5611_WriteCommand(MS5611_RESET)`.
The six calibration reads return an outcome flag and two bytes each; the code
IGNORES the outcome flags (`PIOS_MS5611_Read` return value is discarded at
line 157) and assembles `calibration[i] = (data[0] << 8) | data[1]`
unconditionally, so `calReadOk` is deliberately unused here, mirroring the
source. -/
def ms5611_spi_init (allocOk resetOk : Bool) (calReadOk : Fin 6 → Bool)
    (calBytes : Fin 6 → Nat × Nat) : Int × (Fin 6 → Nat) :=
  if allocOk = false then (-1, fun _ => 0)
  else if resetOk = false then (-2, fun _ => 0)
  else (0, fun i => ((calBytes i).1 <<< 8) ||| (calBytes i).2)

/-- The two conversion kinds of `enum conversion_type`. -/
inductive Conv where
  | pressure
  | temperature
deriving DecidableEq

/-- Code: `MS5611_PRES_ADDR` (0x40). -/
def MS5611_PRES_ADDR : Nat := 64

/-- Code: `MS5611_TEMP_ADDR` (0x50). -/
def MS5611_TEMP_ADDR : Nat := 80

/-- The single command byte issued by `PIOS_MS5611_StartADC`: base address
plus the oversampling setting. -/
def ms5611_conv_command (t : Conv) (osr : Nat) : Nat :=
  match t with
  | Conv.pressure => MS5611_PRES_ADDR + osr
  | Conv.temperature => MS5611_TEMP_ADDR + osr

/-- Result of `PIOS_MS5611_StartADC`: return code, number of
`PIOS_MS5611_WriteCommand` calls made by the retry loop, command byte
issued, and the conversion type recorded in `dev->current_conversion_type`. -/
structure StartAdcResult where
  rc : Int
  attempts : Nat
  command : Nat
  recorded : Option Conv
deriving DecidableEq

/-- Code: `PIOS_MS5611_StartADC` (lines 229-251).  The
`while (PIOS_MS5611_WriteCommand(...) != 0) continue;` loop re-issues the
command until a write succeeds; with `writes` the oracle of write outcomes,
the loop performs `Nat.find h + 1` write attempts (all failing before the
first success) and the hypothesis `h` (some write eventually succeeds) is
exactly the condition under which the C loop terminates. -/
def ms5611_start_adc (valid : Bool) (osr : Nat) (t : Conv)
    (writes : Nat → Bool) (h : ∃ n, writes n = true) : StartAdcResult :=
  if valid = false then { rc := -1, attempts := 0, command := 0, recorded := none }
  else { rc := 0, attempts := Nat.find h + 1,
         command := ms5611_conv_command t osr, recorded := some t }

/-- Code: the `uint32_t` decrement `--temp_press_interleave_count` in
`PIOS_MS5611_Task` (wraps at 0). -/
def u32dec (c : Nat) : Nat := if c = 0 then 4294967295 else c - 1

/-- Observable effects of one iteration of the `PIOS_MS5611_Task` loop:
which conversions were started (in order), whether a sample was published,
and the timeout passed to `PIOS_Queue_Send`. -/
structure IterEffects where
  convs : List Conv
  published : Bool
  pubTimeout : Nat
deriving DecidableEq

/-- Code: one iteration of the `while (1)` loop of `PIOS_MS5611_Task`
(lines 438-473): decrement the interleave counter; if it reached zero, run a
temperature cycle and reset the counter to `cfg->temperature_interleaving`
(minimum 1); always run a pressure cycle; publish with timeout 0 iff the
pressure `PIOS_MS5611_ReadADC` returned 0 (`presReadOk`).  Returns the new
counter and the effects. -/
def ms5611_task_iter (interleave c : Nat) (presReadOk : Bool) : Nat × IterEffects :=
  let c2 := u32dec c
  if c2 = 0 then
    (if interleave = 0 then 1 else interleave,
     { convs := [Conv.temperature, Conv.pressure], published := presReadOk,
       pubTimeout := 0 })
  else
    (c2, { convs := [Conv.pressure], published := presReadOk, pubTimeout := 0 })

/-- Iterated task loop: `n` iterations from counter `c`, iteration index `k`
selecting the pressure-read outcome from the oracle `presOk`. -/
def ms5611_task_trace_from (interleave : Nat) (presOk : Nat → Bool) :
    Nat → Nat → Nat → List IterEffects
  | 0, _, _ => []
  | n + 1, c, k =>
      (ms5611_task_iter interleave c (presOk k)).2 ::
        ms5611_task_trace_from interleave presOk n
          (ms5611_task_iter interleave c (presOk k)).1 (k + 1)

/-- Code: the task loop started with `temp_press_interleave_count = 1`
(line 435), forcing a temperature cycle on the very first iteration. -/
def ms5611_task_trace (interleave : Nat) (presOk : Nat → Bool) (n : Nat) :
    List IterEffects :=
  ms5611_task_trace_from interleave presOk n 1 0

/-- The flat sequence of conversion cycles started over `n` loop iterations
(oracle irrelevant to which conversions are started). -/
def ms5611_task_convs (interleave n : Nat) : List Conv :=
  ((ms5611_task_trace interleave (fun _ => true) n).map IterEffects.convs).flatten

/-! ### WS2811 LED strip driver embedding

From `pios_ws2811.c`.  The device state mirrors `struct ws2811_dev_s`
(lines 62-100): the pixel cursor `pixel_data_pos` becomes an index into the
flattened r,g,b byte stream of `pixel_data` (whose end plays the role of
`pixel_data_end`), and the two 288-byte DMA timing buffers are lists.
Hardware register programming (`ws2811_cue_dma`, lines 202-255) touches only
timer/DMA peripherals and no device fields, so it contributes nothing to the
state transition. -/

/-- One `struct ws2811_pixel_data_s` entry (r, g, b bytes). -/
structure Ws2811Pixel where
  r : Nat
  g : Nat
  b : Nat
deriving DecidableEq

/-- Code: `struct ws2811_dev_s` (lines 62-100). -/
structure Ws2811Dev where
  magic : Nat
  max_leds : Nat
  gpio_bit : Nat
  dma_buf_0 : List Nat
  dma_buf_1 : List Nat
  cur_buf : Bool
  eof : Bool
  in_progress : Bool
  pixel_data_pos : Nat
  pixel_data : List Ws2811Pixel
deriving DecidableEq

/-- Code: `WS2811_MAGIC` (0x31313832). -/
def WS2811_MAGIC : Nat := 0x31313832

/-- Code: `WS2811_DMA_BUFSIZE` (6*24*2 = 288). -/
def WS2811_DMA_BUFSIZE : Nat := 288

/-- The flattened byte stream the pixel cursor walks over (the C code reads
`struct ws2811_pixel_data_s` entries byte by byte: r, g, b in struct order). -/
def ws2811_pixel_bytes (l : List Ws2811Pixel) : List Nat :=
  l.foldr (fun p acc => p.r :: p.g :: p.b :: acc) []

/-- Code: the inner bit loop of `fill_dma_buf` (lines 180-194): for each of
the 8 bits of the byte `p` (msb first, `p` shifted left through a `uint8_t`),
write the early-fall `gpio_val` at the even slot offset if the bit is 0, or
write 0 there if the bit is 1.  `jrem` is the remaining bit count, `i` the
current even offset. -/
def ws2811_fill_bits : Nat → Nat → Nat → Nat → List Nat → List Nat
  | 0, _, _, _, buf => buf
  | jrem + 1, p, i, gpio_val, buf =>
      ws2811_fill_bits jrem ((p <<< 1) % 256) (i + 2) gpio_val
        (buf.set i (if p &&& 128 = 0 then gpio_val else 0))

/-- Code: the outer chunk loop of `fill_dma_buf` (lines 175-195): 16-byte
chunks, one source byte per chunk, stopping early when the cursor reaches
the end of the byte stream.  `chunks` is the remaining chunk count
(`WS2811_DMA_BUFSIZE / 16 = 18` at top level), `i` the offset of the current
chunk. -/
def ws2811_fill_chunks (bytes : List Nat) (gpio_val : Nat) :
    Nat → Nat → List Nat → Nat → List Nat × Nat
  | 0, _, buf, pos => (buf, pos)
  | chunks + 1, i, buf, pos =>
      if pos ≥ bytes.length then (buf, pos)
      else
        ws2811_fill_chunks bytes gpio_val chunks (i + 16)
          (ws2811_fill_bits 8 (bytes.getD pos 0) i gpio_val buf) (pos + 1)

/-- Code: `fill_dma_buf` (lines 170-200): returns the updated buffer, the
advanced pixel cursor, and the end-reached flag the C function returns. -/
def fill_dma_buf (buf : List Nat) (bytes : List Nat) (pos : Nat)
    (gpio_val : Nat) : List Nat × Nat × Bool :=
  ((ws2811_fill_chunks bytes gpio_val 18 0 buf pos).1,
   (ws2811_fill_chunks bytes gpio_val 18 0 buf pos).2,
   decide ((ws2811_fill_chunks bytes gpio_val 18 0 buf pos).2 ≥ bytes.length))

/-- Code: the DMA buffer prefill from `PIOS_WS2811_init` (lines 140-145):
0 at even offsets, the gpio bit image at odd offsets. -/
def ws2811_init_buf (gpio_bit : Nat) : List Nat :=
  (List.range WS2811_DMA_BUFSIZE).map fun i => if i % 2 = 1 then gpio_bit else 0

/-- Code: `PIOS_WS2811_trigger_update` (lines 257-281): no-op if an update is
already in progress; otherwise mark in progress, clear eof, reset the cursor
to the first pixel byte, select buffer 0, eagerly fill both DMA buffers from
the pixel data, and cue the DMA hardware (no device-state effect). -/
def PIOS_WS2811_trigger_update (d : Ws2811Dev) : Ws2811Dev :=
  if d.in_progress then d
  else
    { d with
      in_progress := true
      eof := false
      cur_buf := false
      dma_buf_0 := (fill_dma_buf d.dma_buf_0 (ws2811_pixel_bytes d.pixel_data)
        0 d.gpio_bit).1
      dma_buf_1 := (fill_dma_buf d.dma_buf_1 (ws2811_pixel_bytes d.pixel_data)
        (fill_dma_buf d.dma_buf_0 (ws2811_pixel_bytes d.pixel_data)
          0 d.gpio_bit).2.1 d.gpio_bit).1
      pixel_data_pos := (fill_dma_buf d.dma_buf_1 (ws2811_pixel_bytes d.pixel_data)
        (fill_dma_buf d.dma_buf_0 (ws2811_pixel_bytes d.pixel_data)
          0 d.gpio_bit).2.1 d.gpio_bit).2.1 }

/-- Code: `PIOS_WS2811_set` (lines 283-292).  The two `PIOS_Assert`
preconditions (magic match, `idx < dev->max_leds`) become `none` (fatal,
no write); otherwise the pixel triple is stored with no other effect. -/
def PIOS_WS2811_set (d : Ws2811Dev) (idx : Nat) (r g b : Nat) :
    Option Ws2811Dev :=
  if d.magic ≠ WS2811_MAGIC then none
  else if ¬ idx < d.max_leds then none
  else some { d with pixel_data := d.pixel_data.set idx ⟨r, g, b⟩ }

/-- Code: `PIOS_WS2811_set_all` (lines 294-302): `PIOS_WS2811_set` for each
index below `max_leds`. -/
def PIOS_WS2811_set_all (d : Ws2811Dev) (r g b : Nat) : Option Ws2811Dev :=
  (List.range d.max_leds).foldlM (fun s i => PIOS_WS2811_set s i r g b) d

/-- The caller-facing operations this source file offers on a constructed
device (`PIOS_WS2811_init` aside). -/
inductive WsOp where
  | set (idx r g b : Nat)
  | set_all (r g b : Nat)
  | trigger
deriving DecidableEq

/-- Apply one operation; `none` is a fatal assertion. -/
def ws2811_apply (d : Ws2811Dev) : WsOp → Option Ws2811Dev
  | WsOp.set idx r g b => PIOS_WS2811_set d idx r g b
  | WsOp.set_all r g b => PIOS_WS2811_set_all d r g b
  | WsOp.trigger => some (PIOS_WS2811_trigger_update d)

/-- Run a sequence of operations. -/
def ws2811_run (d : Ws2811Dev) : List WsOp → Option Ws2811Dev
  | [] => some d
  | op :: rest =>
      match ws2811_apply d op with
      | none => none
      | some d2 => ws2811_run d2 rest

/-- A concrete two-LED device used by the witnesses. -/
def ws2811_demo_dev : Ws2811Dev :=
  { magic := WS2811_MAGIC
    max_leds := 2
    gpio_bit := 4
    dma_buf_0 := ws2811_init_buf 4
    dma_buf_1 := ws2811_init_buf 4
    cur_buf := false
    eof := false
    in_progress := false
    pixel_data_pos := 0
    pixel_data := [⟨0, 0, 0⟩, ⟨0, 0, 0⟩] }

/-! ### Theorems -/

theorem wrap64_id {x : Int}
    (h1 : -9223372036854775808 ≤ x) (h2 : x < 9223372036854775808) :
    wrap64 x = x := by
  unfold wrap64
  omega

theorem wrap32_id {x : Int} (h1 : -2147483648 ≤ x) (h2 : x < 2147483648) :
    wrap32 x = x := by
  unfold wrap32
  omega

theorem abs_mul_le {x y A B : Int} (hx : |x| ≤ A) (hy : |y| ≤ B) :
    |x * y| ≤ A * B := by
  rw [abs_mul]
  exact mul_le_mul hx hy (abs_nonneg y) (le_trans (abs_nonneg x) hx)

theorem abs_natCast_le {n : Nat} {A : Int} (h : (n : Int) ≤ A) : |(n : Int)| ≤ A := by
  rw [abs_of_nonneg (Int.natCast_nonneg n)]
  exact h

/-! ### C1 refinement lemmas: the wrapped 64-bit code computation equals the
ideal spec formulas for all in-range inputs (no intermediate overflows). -/

theorem ms5611_delta_temp_eq (cal4 raw : Nat) (h4 : cal4 < 65536)
    (hraw : raw < 16777216) :
    ms5611_delta_temp cal4 raw = spec_delta_temp cal4 raw := by
  unfold ms5611_delta_temp spec_delta_temp wrap32
  omega

theorem spec_delta_temp_bound (cal4 raw : Nat) (h4 : cal4 < 65536)
    (hraw : raw < 16777216) :
    -16777216 ≤ spec_delta_temp cal4 raw ∧ spec_delta_temp cal4 raw ≤ 16777216 := by
  unfold spec_delta_temp
  omega

theorem dt_mul_cal5_bound (cal4 cal5 raw : Nat) (h4 : cal4 < 65536)
    (h5 : cal5 < 65536) (hraw : raw < 16777216) :
    |spec_delta_temp cal4 raw * (cal5 : Int)| ≤ 1099511627776 := by
  have hb := spec_delta_temp_bound cal4 raw h4 hraw
  have h1 : |spec_delta_temp cal4 raw| ≤ 16777216 := abs_le.mpr hb
  have h2 : |(cal5 : Int)| ≤ 65535 := abs_natCast_le (by omega)
  calc |spec_delta_temp cal4 raw * (cal5 : Int)| ≤ 16777216 * 65535 :=
        abs_mul_le h1 h2
    _ ≤ 1099511627776 := by norm_num

theorem ms5611_temperature_eq (cal4 cal5 raw : Nat) (h4 : cal4 < 65536)
    (h5 : cal5 < 65536) (hraw : raw < 16777216) :
    ms5611_temperature cal4 cal5 raw = spec_temperature cal4 cal5 raw := by
  have hd := ms5611_delta_temp_eq cal4 raw h4 hraw
  have hm := abs_le.mp (dt_mul_cal5_bound cal4 cal5 raw h4 h5 hraw)
  unfold ms5611_temperature spec_temperature
  rw [hd]
  unfold wrap64 asr
  omega

theorem spec_temperature_bound (cal4 cal5 raw : Nat) (h4 : cal4 < 65536)
    (h5 : cal5 < 65536) (hraw : raw < 16777216) :
    2000 - 131072 ≤ spec_temperature cal4 cal5 raw ∧
      spec_temperature cal4 cal5 raw ≤ 2000 + 131072 := by
  have hm := abs_le.mp (dt_mul_cal5_bound cal4 cal5 raw h4 h5 hraw)
  unfold spec_temperature asr
  omega

theorem ms5611_temperature_unscaled_eq (cal4 cal5 raw : Nat) (h4 : cal4 < 65536)
    (h5 : cal5 < 65536) (hraw : raw < 16777216) :
    ms5611_temperature_unscaled cal4 cal5 raw =
      spec_temperature_corrected cal4 cal5 raw := by
  have hd := ms5611_delta_temp_eq cal4 raw h4 hraw
  have ht := ms5611_temperature_eq cal4 cal5 raw h4 h5 hraw
  have htb := spec_temperature_bound cal4 cal5 raw h4 h5 hraw
  have hdb := spec_delta_temp_bound cal4 raw h4 hraw
  have h1 : |spec_delta_temp cal4 raw| ≤ 16777216 := abs_le.mpr hdb
  have hsq : |spec_delta_temp cal4 raw * spec_delta_temp cal4 raw| ≤ 281474976710656 := by
    calc |spec_delta_temp cal4 raw * spec_delta_temp cal4 raw| ≤
          16777216 * 16777216 := abs_mul_le h1 h1
      _ ≤ 281474976710656 := by norm_num
  have hsq2 := abs_le.mp hsq
  unfold ms5611_temperature_unscaled spec_temperature_corrected
  rw [hd, ht]
  by_cases hc : spec_temperature cal4 cal5 raw < 2000
  · simp only [if_pos hc]
    unfold wrap64 asr
    omega
  · simp only [if_neg hc]

theorem sq_bound {t A : Int} (h1 : -A ≤ t) (h2 : t ≤ A) :
    0 ≤ t * t ∧ t * t ≤ A * A := by
  refine ⟨mul_self_nonneg t, ?_⟩
  calc t * t ≤ |t * t| := le_abs_self _
    _ ≤ A * A := abs_mul_le (abs_le.mpr ⟨h1, h2⟩) (abs_le.mpr ⟨h1, h2⟩)

theorem cal_mul_dt_bound (c : Nat) (dt : Int) (hc : c < 65536)
    (hdt : -16777216 ≤ dt ∧ dt ≤ 16777216) :
    |(c : Int) * dt| ≤ 1099511627776 := by
  have h1 : |(c : Int)| ≤ 65536 := abs_natCast_le (by omega)
  have h2 : |dt| ≤ 16777216 := abs_le.mpr hdt
  calc |(c : Int) * dt| ≤ 65536 * 16777216 := abs_mul_le h1 h2
    _ ≤ 1099511627776 := by norm_num

theorem ms5611_offset_eq (cal1 cal3 : Nat) (dt : Int) (h1 : cal1 < 65536)
    (h3 : cal3 < 65536) (hdt : -16777216 ≤ dt ∧ dt ≤ 16777216) :
    ms5611_offset cal1 cal3 dt = spec_offset cal1 cal3 dt := by
  have hm := abs_le.mp (cal_mul_dt_bound cal3 dt h3 hdt)
  unfold ms5611_offset spec_offset wrap64 asr
  omega

theorem spec_offset_bound (cal1 cal3 : Nat) (dt : Int) (h1 : cal1 < 65536)
    (h3 : cal3 < 65536) (hdt : -16777216 ≤ dt ∧ dt ≤ 16777216) :
    -17179869184 ≤ spec_offset cal1 cal3 dt ∧
      spec_offset cal1 cal3 dt ≤ 17179869184 := by
  have hm := abs_le.mp (cal_mul_dt_bound cal3 dt h3 hdt)
  unfold spec_offset asr
  omega

theorem ms5611_sens_eq (cal0 cal2 : Nat) (dt : Int) (h0 : cal0 < 65536)
    (h2 : cal2 < 65536) (hdt : -16777216 ≤ dt ∧ dt ≤ 16777216) :
    ms5611_sens cal0 cal2 dt = spec_sens cal0 cal2 dt := by
  have hm := abs_le.mp (cal_mul_dt_bound cal2 dt h2 hdt)
  unfold ms5611_sens spec_sens wrap64 asr
  omega

theorem spec_sens_bound (cal0 cal2 : Nat) (dt : Int) (h0 : cal0 < 65536)
    (h2 : cal2 < 65536) (hdt : -16777216 ≤ dt ∧ dt ≤ 16777216) :
    -8589934592 ≤ spec_sens cal0 cal2 dt ∧ spec_sens cal0 cal2 dt ≤ 8589934592 := by
  have hm := abs_le.mp (cal_mul_dt_bound cal2 dt h2 hdt)
  unfold spec_sens asr
  omega

theorem ms5611_offset_corr_eq (cal1 cal3 : Nat) (dt t tu : Int)
    (h1 : cal1 < 65536) (h3 : cal3 < 65536)
    (hdt : -16777216 ≤ dt ∧ dt ≤ 16777216)
    (ht : 2000 - 131072 ≤ t ∧ t ≤ 2000 + 131072) :
    ms5611_offset_corr cal1 cal3 dt t tu = spec_offset_corr cal1 cal3 dt t tu := by
  have ho := ms5611_offset_eq cal1 cal3 dt h1 h3 hdt
  have hob := spec_offset_bound cal1 cal3 dt h1 h3 hdt
  have hsq1 := sq_bound (t := t - 2000) (A := 131072) (by omega) (by omega)
  have hsq2 := sq_bound (t := t + 1500) (A := 135000) (by omega) (by omega)
  have hasr1 : 0 ≤ asr (5 * ((t - 2000) * (t - 2000))) 1 ∧
      asr (5 * ((t - 2000) * (t - 2000))) 1 ≤ 42949672960 := by
    unfold asr
    omega
  unfold ms5611_offset_corr spec_offset_corr
  rw [ho]
  by_cases hc1 : t < 2000
  · simp only [if_pos hc1]
    rw [show wrap64 (t - 2000) = t - 2000 from wrap64_id (by omega) (by omega)]
    rw [show wrap64 (5 * (t - 2000)) = 5 * (t - 2000) from
      wrap64_id (by omega) (by omega)]
    rw [mul_assoc 5 (t - 2000) (t - 2000)]
    rw [show wrap64 (5 * ((t - 2000) * (t - 2000))) = 5 * ((t - 2000) * (t - 2000))
      from wrap64_id (by omega) (by omega)]
    by_cases hc2 : tu < -1500
    · simp only [if_pos hc2]
      rw [show wrap64 (t + 1500) = t + 1500 from wrap64_id (by omega) (by omega)]
      rw [show wrap64 (7 * (t + 1500)) = 7 * (t + 1500) from
        wrap64_id (by omega) (by omega)]
      rw [mul_assoc 7 (t + 1500) (t + 1500)]
      rw [show wrap64 (7 * ((t + 1500) * (t + 1500))) = 7 * ((t + 1500) * (t + 1500))
        from wrap64_id (by omega) (by omega)]
      rw [show wrap64 (spec_offset cal1 cal3 dt -
          asr (5 * ((t - 2000) * (t - 2000))) 1) = spec_offset cal1 cal3 dt -
          asr (5 * ((t - 2000) * (t - 2000))) 1 from wrap64_id (by omega) (by omega)]
      exact wrap64_id (by omega) (by omega)
    · simp only [if_neg hc2]
      exact wrap64_id (by omega) (by omega)
  · simp only [if_neg hc1]

theorem ms5611_sens_corr_eq (cal0 cal2 : Nat) (dt t tu : Int)
    (h0 : cal0 < 65536) (h2 : cal2 < 65536)
    (hdt : -16777216 ≤ dt ∧ dt ≤ 16777216)
    (ht : 2000 - 131072 ≤ t ∧ t ≤ 2000 + 131072) :
    ms5611_sens_corr cal0 cal2 dt t tu = spec_sens_corr cal0 cal2 dt t tu := by
  have hs := ms5611_sens_eq cal0 cal2 dt h0 h2 hdt
  have hsb := spec_sens_bound cal0 cal2 dt h0 h2 hdt
  have hsq1 := sq_bound (t := t - 2000) (A := 131072) (by omega) (by omega)
  have hsq2 := sq_bound (t := t + 1500) (A := 135000) (by omega) (by omega)
  have hasr1 : 0 ≤ asr (5 * ((t - 2000) * (t - 2000))) 2 ∧
      asr (5 * ((t - 2000) * (t - 2000))) 2 ≤ 21474836480 := by
    unfold asr
    omega
  have hasr2 : 0 ≤ asr (11 * ((t + 1500) * (t + 1500))) 1 ∧
      asr (11 * ((t + 1500) * (t + 1500))) 1 ≤ 100237500000 := by
    unfold asr
    omega
  unfold ms5611_sens_corr spec_sens_corr
  rw [hs]
  by_cases hc1 : t < 2000
  · simp only [if_pos hc1]
    rw [show wrap64 (t - 2000) = t - 2000 from wrap64_id (by omega) (by omega)]
    rw [show wrap64 (5 * (t - 2000)) = 5 * (t - 2000) from
      wrap64_id (by omega) (by omega)]
    rw [mul_assoc 5 (t - 2000) (t - 2000)]
    rw [show wrap64 (5 * ((t - 2000) * (t - 2000))) = 5 * ((t - 2000) * (t - 2000))
      from wrap64_id (by omega) (by omega)]
    by_cases hc2 : tu < -1500
    · simp only [if_pos hc2]
      rw [show wrap64 (t + 1500) = t + 1500 from wrap64_id (by omega) (by omega)]
      rw [show wrap64 (11 * (t + 1500)) = 11 * (t + 1500) from
        wrap64_id (by omega) (by omega)]
      rw [mul_assoc 11 (t + 1500) (t + 1500)]
      rw [show wrap64 (11 * ((t + 1500) * (t + 1500))) = 11 * ((t + 1500) * (t + 1500))
        from wrap64_id (by omega) (by omega)]
      rw [show wrap64 (spec_sens cal0 cal2 dt -
          asr (5 * ((t - 2000) * (t - 2000))) 2) = spec_sens cal0 cal2 dt -
          asr (5 * ((t - 2000) * (t - 2000))) 2 from wrap64_id (by omega) (by omega)]
      exact wrap64_id (by omega) (by omega)
    · simp only [if_neg hc2]
      exact wrap64_id (by omega) (by omega)
  · simp only [if_neg hc1]

theorem spec_offset_corr_bound (cal1 cal3 : Nat) (dt t tu : Int)
    (h1 : cal1 < 65536) (h3 : cal3 < 65536)
    (hdt : -16777216 ≤ dt ∧ dt ≤ 16777216)
    (ht : 2000 - 131072 ≤ t ∧ t ≤ 2000 + 131072) :
    -200000000000 ≤ spec_offset_corr cal1 cal3 dt t tu ∧
      spec_offset_corr cal1 cal3 dt t tu ≤ 200000000000 := by
  have hob := spec_offset_bound cal1 cal3 dt h1 h3 hdt
  have hsq1 := sq_bound (t := t - 2000) (A := 131072) (by omega) (by omega)
  have hsq2 := sq_bound (t := t + 1500) (A := 135000) (by omega) (by omega)
  unfold spec_offset_corr
  rw [mul_assoc 5 (t - 2000) (t - 2000), mul_assoc 7 (t + 1500) (t + 1500)]
  by_cases hc1 : t < 2000
  · simp only [if_pos hc1]
    by_cases hc2 : tu < -1500
    · simp only [if_pos hc2]
      unfold asr
      omega
    · simp only [if_neg hc2]
      unfold asr
      omega
  · simp only [if_neg hc1]
    omega

theorem spec_sens_corr_bound (cal0 cal2 : Nat) (dt t tu : Int)
    (h0 : cal0 < 65536) (h2 : cal2 < 65536)
    (hdt : -16777216 ≤ dt ∧ dt ≤ 16777216)
    (ht : 2000 - 131072 ≤ t ∧ t ≤ 2000 + 131072) :
    -131000000000 ≤ spec_sens_corr cal0 cal2 dt t tu ∧
      spec_sens_corr cal0 cal2 dt t tu ≤ 131000000000 := by
  have hsb := spec_sens_bound cal0 cal2 dt h0 h2 hdt
  have hsq1 := sq_bound (t := t - 2000) (A := 131072) (by omega) (by omega)
  have hsq2 := sq_bound (t := t + 1500) (A := 135000) (by omega) (by omega)
  unfold spec_sens_corr
  rw [mul_assoc 5 (t - 2000) (t - 2000), mul_assoc 11 (t + 1500) (t + 1500)]
  by_cases hc1 : t < 2000
  · simp only [if_pos hc1]
    by_cases hc2 : tu < -1500
    · simp only [if_pos hc2]
      unfold asr
      omega
    · simp only [if_neg hc2]
      unfold asr
      omega
  · simp only [if_neg hc1]
    omega

theorem ms5611_pressure_unscaled_eq (cal0 cal1 cal2 cal3 : Nat) (dt t tu : Int)
    (raw : Nat) (h0 : cal0 < 65536) (h1 : cal1 < 65536) (h2 : cal2 < 65536)
    (h3 : cal3 < 65536) (hraw : raw < 16777216)
    (hdt : -16777216 ≤ dt ∧ dt ≤ 16777216)
    (ht : 2000 - 131072 ≤ t ∧ t ≤ 2000 + 131072) :
    ms5611_pressure_unscaled cal0 cal1 cal2 cal3 dt t tu raw =
      spec_pressure cal0 cal1 cal2 cal3 dt t tu raw := by
  have hsc := ms5611_sens_corr_eq cal0 cal2 dt t tu h0 h2 hdt ht
  have hoc := ms5611_offset_corr_eq cal1 cal3 dt t tu h1 h3 hdt ht
  have hscb := spec_sens_corr_bound cal0 cal2 dt t tu h0 h2 hdt ht
  have hocb := spec_offset_corr_bound cal1 cal3 dt t tu h1 h3 hdt ht
  have hprod : |(raw : Int) * spec_sens_corr cal0 cal2 dt t tu| ≤
      2198000000000000000 := by
    have ha : |(raw : Int)| ≤ 16777216 := abs_natCast_le (by omega)
    have hb : |spec_sens_corr cal0 cal2 dt t tu| ≤ 131000000000 := abs_le.mpr hscb
    calc |(raw : Int) * spec_sens_corr cal0 cal2 dt t tu| ≤
          16777216 * 131000000000 := abs_mul_le ha hb
      _ ≤ 2198000000000000000 := by norm_num
  have hprod2 := abs_le.mp hprod
  unfold ms5611_pressure_unscaled spec_pressure
  rw [hsc, hoc]
  unfold wrap64 asr
  omega

/-- C1: for every valid device (six 16-bit calibration words) and every raw
24-bit ADC code, `PIOS_MS5611_ReadADC` computes the unscaled temperature and
pressure bit-exactly per the spec fixed-point formulas in 64-bit signed
arithmetic with arithmetic right shifts: the temperature conversion computes
`delta_temp`, the uncorrected temperature and the second-order-corrected
`temperature_unscaled` (correction applied iff the uncorrected temperature
is below 2000), and the pressure conversion, using the `delta_temp`,
uncorrected temperature and corrected temperature carried over from the most
recent temperature conversion, computes `(((raw * sens) >> 21) - offset) >> 15`
with the second-order adjustments applied iff the uncorrected temperature was
below 2000 and the tertiary adjustments additionally iff the corrected
temperature was below -1500. -/
theorem ms5611_read_adc_matches_spec (cal0 cal1 cal2 cal3 cal4 cal5 : Nat)
    (rawT rawP : Nat) (h0 : cal0 < 65536) (h1 : cal1 < 65536) (h2 : cal2 < 65536)
    (h3 : cal3 < 65536) (h4 : cal4 < 65536) (h5 : cal5 < 65536)
    (hT : rawT < 16777216) (hP : rawP < 16777216) :
    ms5611_delta_temp cal4 rawT = spec_delta_temp cal4 rawT ∧
    ms5611_temperature cal4 cal5 rawT = spec_temperature cal4 cal5 rawT ∧
    ms5611_temperature_unscaled cal4 cal5 rawT =
      spec_temperature_corrected cal4 cal5 rawT ∧
    ms5611_pressure_unscaled cal0 cal1 cal2 cal3 (ms5611_delta_temp cal4 rawT)
        (ms5611_temperature cal4 cal5 rawT)
        (ms5611_temperature_unscaled cal4 cal5 rawT) rawP =
      spec_pressure cal0 cal1 cal2 cal3 (spec_delta_temp cal4 rawT)
        (spec_temperature cal4 cal5 rawT)
        (spec_temperature_corrected cal4 cal5 rawT) rawP := by
  have hd := ms5611_delta_temp_eq cal4 rawT h4 hT
  have ht := ms5611_temperature_eq cal4 cal5 rawT h4 h5 hT
  have htu := ms5611_temperature_unscaled_eq cal4 cal5 rawT h4 h5 hT
  refine ⟨hd, ht, htu, ?_⟩
  rw [hd, ht, htu]
  exact ms5611_pressure_unscaled_eq cal0 cal1 cal2 cal3
    (spec_delta_temp cal4 rawT) (spec_temperature cal4 cal5 rawT)
    (spec_temperature_corrected cal4 cal5 rawT) rawP h0 h1 h2 h3 hP
    (spec_delta_temp_bound cal4 rawT h4 hT)
    (spec_temperature_bound cal4 cal5 rawT h4 h5 hT)

/-- Witness for C1 at the MS5611 datasheet example inputs. -/
theorem ms5611_read_adc_matches_spec_witness :
    ms5611_delta_temp 33464 8569150 = spec_delta_temp 33464 8569150 ∧
    ms5611_temperature 33464 28312 8569150 = spec_temperature 33464 28312 8569150 ∧
    ms5611_temperature_unscaled 33464 28312 8569150 =
      spec_temperature_corrected 33464 28312 8569150 ∧
    ms5611_pressure_unscaled 40127 36924 23317 23282
        (ms5611_delta_temp 33464 8569150) (ms5611_temperature 33464 28312 8569150)
        (ms5611_temperature_unscaled 33464 28312 8569150) 9085466 =
      spec_pressure 40127 36924 23317 23282 (spec_delta_temp 33464 8569150)
        (spec_temperature 33464 28312 8569150)
        (spec_temperature_corrected 33464 28312 8569150) 9085466 :=
  ms5611_read_adc_matches_spec 40127 36924 23317 23282 33464 28312 8569150 9085466
    (by norm_num) (by norm_num) (by norm_num) (by norm_num) (by norm_num)
    (by norm_num) (by norm_num) (by norm_num)

/-- C3 counterexample: with calibration words (128,0,0,0,0,0), a temperature
raw code 0 and a pressure raw code 2^23, the self-test computes unscaled
temperature 2000 and unscaled pressure 512 and returns failure (-1), although
512 lies inside the claimed pressure range [100, 12000]; the code actually
checks pressure against [1000, 120000]. -/
theorem ms5611_spi_test_range_counterexample :
    ms5611_spi_test 128 0 0 0 0 0 0 8388608 = -1 ∧
    ms5611_temperature_unscaled 0 0 0 = 2000 ∧
    ms5611_pressure_unscaled 128 0 0 0 (ms5611_delta_temp 0 0)
      (ms5611_temperature 0 0 0) (ms5611_temperature_unscaled 0 0 0) 8388608 = 512 ∧
    ¬ ((2000 : Int) < -4000 ∨ (2000 : Int) > 8500 ∨
       (512 : Int) < 100 ∨ (512 : Int) > 12000) := by
  refine ⟨by decide, by decide, by decide, by decide⟩

/-- C3 (amended): the self-test, after one full temperature cycle and one
full pressure cycle, returns failure iff the resulting unscaled temperature
is outside [-4000, 8500] centi-degrees or the resulting unscaled pressure is
outside [1000, 120000] raw units (not [100, 12000] as claimed); results
inside both ranges return success (0). -/
theorem ms5611_spi_test_range (cal0 cal1 cal2 cal3 cal4 cal5 rawT rawP : Nat) :
    (ms5611_spi_test cal0 cal1 cal2 cal3 cal4 cal5 rawT rawP = -1 ↔
      (ms5611_temperature_unscaled cal4 cal5 rawT < -4000 ∨
       ms5611_temperature_unscaled cal4 cal5 rawT > 8500 ∨
       ms5611_pressure_unscaled cal0 cal1 cal2 cal3 (ms5611_delta_temp cal4 rawT)
         (ms5611_temperature cal4 cal5 rawT)
         (ms5611_temperature_unscaled cal4 cal5 rawT) rawP < 1000 ∨
       ms5611_pressure_unscaled cal0 cal1 cal2 cal3 (ms5611_delta_temp cal4 rawT)
         (ms5611_temperature cal4 cal5 rawT)
         (ms5611_temperature_unscaled cal4 cal5 rawT) rawP > 120000)) ∧
    (ms5611_spi_test cal0 cal1 cal2 cal3 cal4 cal5 rawT rawP = 0 ↔
      (-4000 ≤ ms5611_temperature_unscaled cal4 cal5 rawT ∧
       ms5611_temperature_unscaled cal4 cal5 rawT ≤ 8500 ∧
       1000 ≤ ms5611_pressure_unscaled cal0 cal1 cal2 cal3
         (ms5611_delta_temp cal4 rawT) (ms5611_temperature cal4 cal5 rawT)
         (ms5611_temperature_unscaled cal4 cal5 rawT) rawP ∧
       ms5611_pressure_unscaled cal0 cal1 cal2 cal3 (ms5611_delta_temp cal4 rawT)
         (ms5611_temperature cal4 cal5 rawT)
         (ms5611_temperature_unscaled cal4 cal5 rawT) rawP ≤ 120000)) := by
  unfold ms5611_spi_test ms5611_selftest_check
  split_ifs with hc
  · refine ⟨⟨fun _ => hc, fun _ => rfl⟩,
      ⟨fun habs => absurd habs (by norm_num), fun hin => absurd hc (by omega)⟩⟩
  · refine ⟨⟨fun habs => absurd habs (by norm_num), fun hin => absurd hin hc⟩,
      ⟨fun _ => by omega, fun _ => rfl⟩⟩

/-- C6 counterexample: with allocation and reset succeeding but all six
calibration reads failing, `PIOS_MS5611_SPI_Init` still returns success (0):
the code discards the return value of the calibration reads, contradicting
the claim that a failed calibration read yields an error status. -/
theorem ms5611_spi_init_ignores_cal_read_failure :
    (ms5611_spi_init true true (fun _ => false) (fun _ => (0, 0))).1 = 0 := rfl

/-- C6 (amended): `PIOS_MS5611_SPI_Init` returns -1 iff allocation fails and
-2 iff allocation succeeds but the bus reset fails; otherwise it returns
success (0) regardless of the six calibration read outcomes, whose flags do
not influence the result at all. -/
theorem ms5611_spi_init_error_iff (allocOk resetOk : Bool)
    (calReadOk : Fin 6 → Bool) (calBytes : Fin 6 → Nat × Nat) :
    ((ms5611_spi_init allocOk resetOk calReadOk calBytes).1 = 0 ↔
      (allocOk = true ∧ resetOk = true)) ∧
    ((ms5611_spi_init allocOk resetOk calReadOk calBytes).1 < 0 ↔
      (allocOk = false ∨ resetOk = false)) ∧
    ((ms5611_spi_init allocOk resetOk calReadOk calBytes).1 = -1 ↔
      allocOk = false) ∧
    ((ms5611_spi_init allocOk resetOk calReadOk calBytes).1 = -2 ↔
      (allocOk = true ∧ resetOk = false)) ∧
    (∀ calReadOk2 : Fin 6 → Bool,
      ms5611_spi_init allocOk resetOk calReadOk calBytes =
        ms5611_spi_init allocOk resetOk calReadOk2 calBytes) := by
  cases allocOk <;> cases resetOk <;> simp [ms5611_spi_init]

theorem ms5611_task_iter_published (il c : Nat) (ok : Bool) :
    (ms5611_task_iter il c ok).2.published = ok := by
  unfold ms5611_task_iter
  by_cases h : u32dec c = 0 <;> simp [h]

theorem ms5611_task_iter_timeout (il c : Nat) (ok : Bool) :
    (ms5611_task_iter il c ok).2.pubTimeout = 0 := by
  unfold ms5611_task_iter
  by_cases h : u32dec c = 0 <;> simp [h]

theorem ms5611_task_trace_from_published (il : Nat) (f : Nat → Bool) (n : Nat) :
    ∀ c k, (ms5611_task_trace_from il f n c k).map IterEffects.published =
      (List.range n).map fun i => f (k + i) := by
  induction n with
  | zero => intro c k; rfl
  | succ n ih =>
      intro c k
      rw [List.range_succ_eq_map]
      simp only [ms5611_task_trace_from, List.map_cons, List.map_map,
        ms5611_task_iter_published, ih]
      refine congrArg₂ List.cons (congrArg f (by omega)) ?_
      refine List.map_congr_left fun i _ => ?_
      exact congrArg f (by omega)

theorem ms5611_task_trace_from_timeout (il : Nat) (f : Nat → Bool) (n : Nat) :
    ∀ c k, (ms5611_task_trace_from il f n c k).map IterEffects.pubTimeout =
      List.replicate n 0 := by
  induction n with
  | zero => intro c k; rfl
  | succ n ih =>
      intro c k
      simp only [ms5611_task_trace_from, List.map_cons, ms5611_task_iter_timeout,
        ih, List.replicate_succ]

theorem ms5611_task_trace_from_length (il : Nat) (f : Nat → Bool) (n : Nat) :
    ∀ c k, (ms5611_task_trace_from il f n c k).length = n := by
  induction n with
  | zero => intro c k; rfl
  | succ n ih =>
      intro c k
      simp only [ms5611_task_trace_from, List.length_cons, ih]

/-- C4: with `temperature_interleaving = 3`, the sequence of conversion
cycles started by the sampling task is Temp, Pres, Pres, Pres, Temp, Pres,
Pres over its first seven conversion cycles; the counter starts at 1 so a
temperature cycle runs in the very first loop iteration, a temperature cycle
runs exactly when the decremented counter reaches zero, the counter is then
reset to the interleave value (minimum 1 when the config value is 0), and a
pressure cycle runs in every iteration. -/
theorem ms5611_task_interleave_pattern :
    (ms5611_task_convs 3 7).take 7 =
      [Conv.temperature, Conv.pressure, Conv.pressure, Conv.pressure,
       Conv.temperature, Conv.pressure, Conv.pressure] ∧
    (∀ il f n, ((ms5611_task_trace il f (n + 1)).map IterEffects.convs).head? =
      some [Conv.temperature, Conv.pressure]) ∧
    (∀ il c ok, (ms5611_task_iter il c ok).2.convs =
      if u32dec c = 0 then [Conv.temperature, Conv.pressure]
      else [Conv.pressure]) ∧
    (∀ il c ok, Conv.pressure ∈ (ms5611_task_iter il c ok).2.convs) ∧
    (∀ il c ok, (ms5611_task_iter il c ok).1 =
      if u32dec c = 0 then (if il = 0 then 1 else il) else u32dec c) := by
  refine ⟨by decide, fun il f n => rfl, fun il c ok => ?_, fun il c ok => ?_,
    fun il c ok => ?_⟩
  · unfold ms5611_task_iter
    by_cases h : u32dec c = 0 <;> simp [h]
  · unfold ms5611_task_iter
    by_cases h : u32dec c = 0 <;> simp [h]
  · unfold ms5611_task_iter
    by_cases h : u32dec c = 0 <;> simp [h]

/-- C5: in every iteration of the sampling task a sample is sent to the
queue with timeout 0 (never blocking) iff that iteration's pressure read
succeeded, and the loop continues over any sequence of read outcomes: the
trace of `n` iterations always has length `n`, its published flags are
exactly the pressure-read outcomes, and every publish uses timeout 0. -/
theorem ms5611_task_publish_iff_pressure_read :
    (∀ il c ok, (ms5611_task_iter il c ok).2.published = ok ∧
      (ms5611_task_iter il c ok).2.pubTimeout = 0) ∧
    (∀ il f n c k,
      (ms5611_task_trace_from il f n c k).map IterEffects.published =
        (List.range n).map fun i => f (k + i)) ∧
    (∀ il f n c k,
      (ms5611_task_trace_from il f n c k).map IterEffects.pubTimeout =
        List.replicate n 0) ∧
    (∀ il f n c k, (ms5611_task_trace_from il f n c k).length = n) :=
  ⟨fun il c ok => ⟨ms5611_task_iter_published il c ok,
      ms5611_task_iter_timeout il c ok⟩,
   fun il f n c k => ms5611_task_trace_from_published il f n c k,
   fun il f n c k => ms5611_task_trace_from_timeout il f n c k,
   fun il f n c k => ms5611_task_trace_from_length il f n c k⟩

/-- C8: for a valid device and either conversion kind, `PIOS_MS5611_StartADC`
never surfaces a bus-write failure: it re-issues the single command byte
(base address plus oversampling) until some write succeeds -- making exactly
the failed attempts before the first success, which exists by hypothesis --
and only then records the requested kind and returns 0. -/
theorem ms5611_start_adc_retries_until_success (osr : Nat) (t : Conv)
    (writes : Nat → Bool) (h : ∃ n, writes n = true) :
    (ms5611_start_adc true osr t writes h).rc = 0 ∧
    (ms5611_start_adc true osr t writes h).recorded = some t ∧
    (ms5611_start_adc true osr t writes h).command = ms5611_conv_command t osr ∧
    1 ≤ (ms5611_start_adc true osr t writes h).attempts ∧
    writes ((ms5611_start_adc true osr t writes h).attempts - 1) = true ∧
    (∀ m, m < (ms5611_start_adc true osr t writes h).attempts - 1 →
      writes m = false) := by
  unfold ms5611_start_adc
  simp only [Bool.true_eq_false, if_false]
  refine ⟨by trivial, by trivial, by trivial, by omega, ?_, ?_⟩
  · simpa using Nat.find_spec h
  · intro m hm
    have h2 : m < Nat.find h := by simpa using hm
    have h3 := Nat.find_min h h2
    simpa using h3

/-- Witness for C8: a write oracle failing twice before succeeding. -/
theorem ms5611_start_adc_retries_until_success_witness :
    (ms5611_start_adc true 8 Conv.temperature (fun n => decide (2 ≤ n))
      ⟨2, by decide⟩).rc = 0 ∧
    (ms5611_start_adc true 8 Conv.temperature (fun n => decide (2 ≤ n))
      ⟨2, by decide⟩).recorded = some Conv.temperature ∧
    (ms5611_start_adc true 8 Conv.temperature (fun n => decide (2 ≤ n))
      ⟨2, by decide⟩).command = ms5611_conv_command Conv.temperature 8 ∧
    1 ≤ (ms5611_start_adc true 8 Conv.temperature (fun n => decide (2 ≤ n))
      ⟨2, by decide⟩).attempts ∧
    (fun n => decide (2 ≤ n))
      ((ms5611_start_adc true 8 Conv.temperature (fun n => decide (2 ≤ n))
        ⟨2, by decide⟩).attempts - 1) = true ∧
    (∀ m, m < (ms5611_start_adc true 8 Conv.temperature (fun n => decide (2 ≤ n))
        ⟨2, by decide⟩).attempts - 1 → (fun n => decide (2 ≤ n)) m = false) :=
  ms5611_start_adc_retries_until_success 8 Conv.temperature
    (fun n => decide (2 ≤ n)) ⟨2, by decide⟩

/-- C2 counterexample: encoding the pixel byte 0b10110000 (= 176, zero bits
at msb-positions 1, 4, 5, 6, 7) with early-fall value 1 puts NO marker at
the slot of bit position 3 (even offset 6 holds 0, the bit is 1) and DOES
put a marker at bit position 5 (even offset 10 holds 1), refuting the
claimed marker set {1, 3, 4}. -/
theorem ws2811_encode_byte_counterexample :
    (fill_dma_buf (ws2811_init_buf 1) [176] 0 1).1.getD 6 0 = 0 ∧
    (fill_dma_buf (ws2811_init_buf 1) [176] 0 1).1.getD 10 0 = 1 ∧
    ¬ (∀ j, j < 8 →
      ((fill_dma_buf (ws2811_init_buf 1) [176] 0 1).1.getD (2 * j) 0 = 1 ↔
        (j = 1 ∨ j = 3 ∨ j = 4))) := by
  refine ⟨by decide, by decide, by decide⟩

/-- C2 (amended): encoding the pixel byte 0b10110000 into a prefilled timing
buffer produces a 16-byte slot pattern whose early-fall markers occupy
exactly the 2-byte slots of bit positions 1, 4, 5, 6, 7 (the zero bits,
0-indexed from the msb) and no marker at positions 0, 2, 3: a 0 bit writes
the early-fall value at the even offset of its slot, a 1 bit writes 0 there,
odd offsets keep the prefilled late-fall value, the rest of the buffer is
untouched, and the cursor advances past the single source byte. -/
theorem ws2811_encode_byte_pattern (g : Nat) :
    (fill_dma_buf (ws2811_init_buf g) [176] 0 g).1.take 16 =
      [0, g, g, g, 0, g, 0, g, g, g, g, g, g, g, g, g] ∧
    (fill_dma_buf (ws2811_init_buf g) [176] 0 g).1.drop 16 =
      (ws2811_init_buf g).drop 16 ∧
    (fill_dma_buf (ws2811_init_buf g) [176] 0 g).2.1 = 1 ∧
    (fill_dma_buf (ws2811_init_buf g) [176] 0 g).2.2 = true := by
  exact ⟨rfl, rfl, rfl, rfl⟩

theorem ws2811_trigger_noop_of_in_progress {d : Ws2811Dev}
    (h : d.in_progress = true) : PIOS_WS2811_trigger_update d = d := by
  unfold PIOS_WS2811_trigger_update
  simp [h]

theorem ws2811_trigger_sets_in_progress (d : Ws2811Dev) :
    (PIOS_WS2811_trigger_update d).in_progress = true := by
  unfold PIOS_WS2811_trigger_update
  by_cases h : d.in_progress
  · simp [h]
  · simp [h]

theorem ws2811_set_preserves_in_progress {d d2 : Ws2811Dev} {idx r g b : Nat}
    (h : PIOS_WS2811_set d idx r g b = some d2) :
    d2.in_progress = d.in_progress := by
  unfold PIOS_WS2811_set at h
  split_ifs at h
  simp only [Option.some.injEq] at h
  subst h
  rfl

theorem ws2811_set_fold_preserves_in_progress {r g b : Nat} :
    ∀ (l : List Nat) (d d2 : Ws2811Dev),
      List.foldlM (fun s i => PIOS_WS2811_set s i r g b) d l = some d2 →
      d2.in_progress = d.in_progress := by
  intro l
  induction l with
  | nil =>
      intro d d2 h
      simp only [List.foldlM_nil] at h
      injection h with h2
      subst h2
      rfl
  | cons i rest ih =>
      intro d d2 h
      simp only [List.foldlM_cons] at h
      cases hset : PIOS_WS2811_set d i r g b with
      | none => rw [hset] at h; simp at h
      | some d3 =>
          rw [hset] at h
          have h2 := ih d3 d2 h
          rw [h2, ws2811_set_preserves_in_progress hset]

theorem ws2811_set_all_preserves_in_progress {d d2 : Ws2811Dev} {r g b : Nat}
    (h : PIOS_WS2811_set_all d r g b = some d2) :
    d2.in_progress = d.in_progress :=
  ws2811_set_fold_preserves_in_progress (List.range d.max_leds) d d2 h

theorem ws2811_apply_preserves_in_progress {d d2 : Ws2811Dev} {op : WsOp}
    (h : ws2811_apply d op = some d2) (hp : d.in_progress = true) :
    d2.in_progress = true := by
  cases op with
  | set idx r g b =>
      unfold ws2811_apply at h
      rw [ws2811_set_preserves_in_progress h, hp]
  | set_all r g b =>
      unfold ws2811_apply at h
      rw [ws2811_set_all_preserves_in_progress h, hp]
  | trigger =>
      unfold ws2811_apply at h
      simp only [Option.some.injEq] at h
      subst h
      exact ws2811_trigger_sets_in_progress d

theorem ws2811_run_preserves_in_progress :
    ∀ (l : List WsOp) (s t : Ws2811Dev), s.in_progress = true →
      ws2811_run s l = some t → t.in_progress = true := by
  intro l
  induction l with
  | nil =>
      intro s t hs h
      unfold ws2811_run at h
      simp only [Option.some.injEq] at h
      subst h
      exact hs
  | cons op rest ih =>
      intro s t hs h
      unfold ws2811_run at h
      cases happ : ws2811_apply s op with
      | none => rw [happ] at h; simp at h
      | some s2 =>
          rw [happ] at h
          exact ih s2 t (ws2811_apply_preserves_in_progress happ hs) h

/-- C7: `PIOS_WS2811_trigger_update` called while `in_progress` is true
returns immediately with the device state unchanged: neither DMA timing
buffer is written, and the cursor, eof, cur_buf, in_progress and pixel data
are all left as they were (a safe no-op, not an error). -/
theorem ws2811_trigger_update_noop_when_in_progress (d : Ws2811Dev)
    (h : d.in_progress = true) : PIOS_WS2811_trigger_update d = d :=
  ws2811_trigger_noop_of_in_progress h

/-- Witness for C7 on a concrete in-progress device. -/
theorem ws2811_trigger_update_noop_when_in_progress_witness :
    ({ ws2811_demo_dev with in_progress := true } : Ws2811Dev).in_progress
      = true ∧
    PIOS_WS2811_trigger_update { ws2811_demo_dev with in_progress := true } =
      { ws2811_demo_dev with in_progress := true } :=
  ⟨rfl, ws2811_trigger_update_noop_when_in_progress
    { ws2811_demo_dev with in_progress := true } rfl⟩

/-- C9: on a device with a valid magic, `PIOS_WS2811_set` with
`index >= max_leds` (in particular `index = max_leds`) hits the fatal
precondition assertion and performs no write at all, while every
`index < max_leds` stores the (r,g,b) triple at that pixel and changes
nothing else -- in particular neither DMA timing buffer, so there is no
immediate hardware effect. -/
theorem ws2811_set_bounds_checked (d : Ws2811Dev) (idx r g b : Nat)
    (hm : d.magic = WS2811_MAGIC) :
    (d.max_leds ≤ idx → PIOS_WS2811_set d idx r g b = none) ∧
    (idx < d.max_leds → PIOS_WS2811_set d idx r g b =
      some { d with pixel_data := d.pixel_data.set idx ⟨r, g, b⟩ }) ∧
    (idx < d.pixel_data.length → ∀ d2, PIOS_WS2811_set d idx r g b = some d2 →
      d2.pixel_data.getD idx ⟨0, 0, 0⟩ = ⟨r, g, b⟩ ∧
      d2.dma_buf_0 = d.dma_buf_0 ∧ d2.dma_buf_1 = d.dma_buf_1 ∧
      d2.in_progress = d.in_progress ∧ d2.magic = d.magic ∧
      d2.max_leds = d.max_leds) := by
  refine ⟨?_, ?_, ?_⟩
  · intro hge
    unfold PIOS_WS2811_set
    rw [if_neg (by simp [hm]), if_pos (by omega)]
  · intro hlt
    unfold PIOS_WS2811_set
    rw [if_neg (by simp [hm]), if_neg (by omega)]
  · intro hlen d2 h
    unfold PIOS_WS2811_set at h
    split_ifs at h
    simp only [Option.some.injEq] at h
    subst h
    refine ⟨?_, rfl, rfl, rfl, rfl, rfl⟩
    rw [List.getD_eq_getElem?_getD, List.getElem?_set_self (by simpa using hlen)]
    rfl

/-- Witness for C9 on the concrete two-LED device: index 2 = max_leds is
fatal, index 1 stores the triple. -/
theorem ws2811_set_bounds_checked_witness :
    (ws2811_demo_dev.max_leds ≤ 2 →
      PIOS_WS2811_set ws2811_demo_dev 2 9 8 7 = none) ∧
    (2 < ws2811_demo_dev.max_leds →
      PIOS_WS2811_set ws2811_demo_dev 2 9 8 7 =
        some { ws2811_demo_dev with
          pixel_data := ws2811_demo_dev.pixel_data.set 2 ⟨9, 8, 7⟩ }) ∧
    (2 < ws2811_demo_dev.pixel_data.length →
      ∀ d2, PIOS_WS2811_set ws2811_demo_dev 2 9 8 7 = some d2 →
        d2.pixel_data.getD 2 ⟨0, 0, 0⟩ = ⟨9, 8, 7⟩ ∧
        d2.dma_buf_0 = ws2811_demo_dev.dma_buf_0 ∧
        d2.dma_buf_1 = ws2811_demo_dev.dma_buf_1 ∧
        d2.in_progress = ws2811_demo_dev.in_progress ∧
        d2.magic = ws2811_demo_dev.magic ∧
        d2.max_leds = ws2811_demo_dev.max_leds) :=
  ws2811_set_bounds_checked ws2811_demo_dev 2 9 8 7 rfl

/-- C10: no operation offered by this source ever clears `in_progress` once
`PIOS_WS2811_trigger_update` has set it (the refill/completion interrupt
handler is absent from the file): in every state reachable by set / set_all /
trigger_update after a first trigger_update, `in_progress` is still true and
a further trigger_update is a no-op. -/
theorem ws2811_in_progress_never_cleared (d : Ws2811Dev) (ops : List WsOp)
    (d2 : Ws2811Dev)
    (h : ws2811_run (PIOS_WS2811_trigger_update d) ops = some d2) :
    d2.in_progress = true ∧ PIOS_WS2811_trigger_update d2 = d2 := by
  have h1 := ws2811_run_preserves_in_progress ops (PIOS_WS2811_trigger_update d)
    d2 (ws2811_trigger_sets_in_progress d) h
  exact ⟨h1, ws2811_trigger_noop_of_in_progress h1⟩

/-- Witness for C10: set pixel 0, repaint all, trigger again after a first
trigger on the concrete device. -/
theorem ws2811_in_progress_never_cleared_witness :
    ((ws2811_run (PIOS_WS2811_trigger_update ws2811_demo_dev)
        [WsOp.set 0 1 2 3, WsOp.set_all 5 6 7, WsOp.trigger]).getD
      ws2811_demo_dev).in_progress = true ∧
    PIOS_WS2811_trigger_update
        ((ws2811_run (PIOS_WS2811_trigger_update ws2811_demo_dev)
          [WsOp.set 0 1 2 3, WsOp.set_all 5 6 7, WsOp.trigger]).getD
        ws2811_demo_dev) =
      (ws2811_run (PIOS_WS2811_trigger_update ws2811_demo_dev)
          [WsOp.set 0 1 2 3, WsOp.set_all 5 6 7, WsOp.trigger]).getD
        ws2811_demo_dev :=
  ws2811_in_progress_never_cleared ws2811_demo_dev
    [WsOp.set 0 1 2 3, WsOp.set_all 5 6 7, WsOp.trigger] _ rfl
